import Mathlib

/-!
Shallow embedding of the atmosphere selection policy of
`popstar/atmospheres.py`.  Real-valued model parameters are embedded
as rationals; the external catalog interpolator (the function
`pysynphot.Icat` of the third-party library) is taken as an explicit
function argument so that theorems can quantify over it.
-/

namespace PyPopStar

/-- Spectrum as produced by the external interpolator: parallel
wavelength and flux sequences. -/
structure Spectrum where
  wave : List ℚ
  flux : List ℚ

/-- Argument tuple of one call to the external interpolator
`pysynphot.Icat(grid, temperature, metallicity, gravity)`. -/
structure IcatQuery where
  grid : String
  temperature : ℚ
  metallicity : ℚ
  gravity : ℚ

/-- Content of the printed could-not-find diagnostic: the model family
name and the three parameter values that the code prints. -/
structure Diagnostic where
  family : String
  temperature : ℚ
  metallicity : ℚ
  gravity : ℚ

/-- Observable outcome of a fetcher once it reaches the interpolator:
the query made, the spectrum obtained, and the diagnostic (if any). -/
structure FetchResult where
  query : IcatQuery
  sp : Spectrum
  diagnostic : Option Diagnostic

/-- Embedding of `np.arange(start, stop, step)` for a positive step:
the values `start + i * step` for `0 ≤ i < ⌈(stop - start) / step⌉`. -/
def np_arange (start stop step : ℚ) : List ℚ :=
  (List.range (Int.ceil ((stop - start) / step)).toNat).map
    (fun (i : ℕ) => start + step * (i : ℚ))

/-- Embeds `t1 = np.arange(3000, 13000+1, 250)` of `get_castelli_atmosphere`. -/
def castelli_t1 : List ℚ := np_arange 3000 (13000 + 1) 250

/-- Embeds `t2 = np.arange(13000, 50000+1, 1000)` of `get_castelli_atmosphere`. -/
def castelli_t2 : List ℚ := np_arange 13000 (50000 + 1) 1000

/-- Embeds `temp_arr = np.append(t1, t2)` of `get_castelli_atmosphere`. -/
def castelli_temp_arr : List ℚ := castelli_t1 ++ castelli_t2

/-- Embeds `grav_arr = np.arange(2.0, 5.0+0.1, 0.5)` of
`get_castelli_atmosphere` (0.1 and 0.5 are exact binary floats here,
so the rational values coincide with the float values). -/
def castelli_grav_arr : List ℚ := np_arange 2 (5 + 1/10) (1/2)

/-- Embeds `t1 = np.arange(2300, 7000+1, 100)` of `get_phoenixv16_atmosphere`. -/
def phoenix_t1 : List ℚ := np_arange 2300 (7000 + 1) 100

/-- Embeds `t2 = np.arange(7000, 12000+1, 200)` of `get_phoenixv16_atmosphere`. -/
def phoenix_t2 : List ℚ := np_arange 7000 (12000 + 1) 200

/-- Embeds `temp_arr = np.append(t1, t2)` of `get_phoenixv16_atmosphere`. -/
def phoenix_temp_arr : List ℚ := phoenix_t1 ++ phoenix_t2

/-- Embeds `grav_arr = np.arange(2.0, 6.0+0.1, 0.5)` of `get_phoenixv16_atmosphere`. -/
def phoenix_grav_arr : List ℚ := np_arange 2 (6 + 1/10) (1/2)

/-- Embeds `temp_arr = np.array([5250])` of `get_atlas_phoenix_atmosphere`. -/
def atlas_temp_arr : List ℚ := [5250]

/-- Embeds `grav_arr = np.arange(0.0, 5.0+0.1, 0.5)` of `get_atlas_phoenix_atmosphere`. -/
def atlas_grav_arr : List ℚ := np_arange 0 (5 + 1/10) (1/2)

/-- Minimum of a list of rationals, as `min(...)` of numpy (0 on the
empty list, which never occurs on the node arrays). -/
def listMin : List ℚ → ℚ
  | [] => 0
  | a :: rest => rest.foldl min a

/-- The array `abs(arr - x)` of per-node absolute distances. -/
def absDiffs (arr : List ℚ) (x : ℚ) : List ℚ := arr.map (fun v => |v - x|)

/-- Embedding of the snapping idiom
`arr[np.where(abs(arr - x) == min(abs(arr - x)))[0][0]]`:
the first array element whose distance to `x` attains the minimum
(`np.where` lists matching indices in increasing order and `[0]`
takes the first).  The default `x` is never reached on a nonempty
array. -/
def npNearest (arr : List ℚ) (x : ℚ) : ℚ :=
  (arr.find? (fun v => decide (|v - x| = listMin (absDiffs arr x)))).getD x

/-- Embedding of the emptiness test of `np.where(sp.flux != 0)[0]`:
every flux value is exactly zero. -/
def allFluxZero (sp : Spectrum) : Bool := sp.flux.all (fun f => decide (f = 0))

/-- Shared tail of every fetcher: call the interpolator and, if the
returned flux is identically zero, emit the could-not-find diagnostic
naming the family and the three queried parameters; the spectrum is
returned either way. -/
def icatFetch (icat : IcatQuery → Spectrum) (grid family : String)
    (temperature metallicity gravity : ℚ) : FetchResult :=
  ⟨⟨grid, temperature, metallicity, gravity⟩,
   icat ⟨grid, temperature, metallicity, gravity⟩,
   if allFluxZero (icat ⟨grid, temperature, metallicity, gravity⟩) then
     some ⟨family, temperature, metallicity, gravity⟩
   else none⟩

/-- Embeds `get_kurucz_atmosphere`: direct pass-through to `Icat`. -/
def get_kurucz_atmosphere (icat : IcatQuery → Spectrum)
    (metallicity temperature gravity : ℚ) : FetchResult :=
  icatFetch icat "k93models" "Kurucz 1993" temperature metallicity gravity

/-- Embeds `get_nextgen_atmosphere`: direct pass-through to `Icat`. -/
def get_nextgen_atmosphere (icat : IcatQuery → Spectrum)
    (metallicity temperature gravity : ℚ) : FetchResult :=
  icatFetch icat "nextgen" "NextGen" temperature metallicity gravity

/-- Embeds `get_amesdusty_atmosphere`: direct pass-through to `Icat`. -/
def get_amesdusty_atmosphere (icat : IcatQuery → Spectrum)
    (metallicity temperature gravity : ℚ) : FetchResult :=
  icatFetch icat "AMESdusty" "AMESdusty Allard+ 2000" temperature metallicity gravity

/-- Embeds `get_phoenix_atmosphere`: direct pass-through to `Icat`. -/
def get_phoenix_atmosphere (icat : IcatQuery → Spectrum)
    (metallicity temperature gravity : ℚ) : FetchResult :=
  icatFetch icat "phoenix" "PHOENIX BT-Settl (Allard+ 2011" temperature metallicity gravity

/-- Embeds `get_cmfgenRot_atmosphere`: direct pass-through to `Icat`. -/
def get_cmfgenRot_atmosphere (icat : IcatQuery → Spectrum)
    (metallicity temperature gravity : ℚ) : FetchResult :=
  icatFetch icat "cmfgenF15_rot" "CMFGEN rotating (Fierro+15)" temperature metallicity gravity

/-- Embeds `get_cmfgenNoRot_atmosphere`: direct pass-through to `Icat`. -/
def get_cmfgenNoRot_atmosphere (icat : IcatQuery → Spectrum)
    (metallicity temperature gravity : ℚ) : FetchResult :=
  icatFetch icat "cmfgenF15_noRot" "CMFGEN non-rotating (Fierro+15)" temperature metallicity gravity

/-- Embeds `get_castelli_atmosphere`: reject below 3000 K, snap
temperature and gravity to the nearest node, raise a snapped gravity
below 2.5 to 2.5, query `ck04models`.  `none` is the Python `None`. -/
def get_castelli_atmosphere (icat : IcatQuery → Spectrum)
    (metallicity temperature gravity : ℚ) : Option FetchResult :=
  if temperature < 3000 then none
  else
    some (icatFetch icat "ck04models" "Castelli and Kurucz 2004"
      (npNearest castelli_temp_arr temperature)
      metallicity
      (if npNearest castelli_grav_arr gravity < 5/2 then 5/2
       else npNearest castelli_grav_arr gravity))

/-- Embeds `get_phoenixv16_atmosphere`: reject outside 2300 - 12000 K
or gravity below 2.0, snap, reject a snap farther than 100 K or 0.5
dex, query `phoenix_v16_rebin` (or `phoenix_v16` if `rebin` is false). -/
def get_phoenixv16_atmosphere (icat : IcatQuery → Spectrum)
    (metallicity temperature gravity : ℚ) (rebin : Bool) : Option FetchResult :=
  if temperature < 2300 ∨ temperature > 12000 ∨ gravity < 2 then none
  else if |temperature - npNearest phoenix_temp_arr temperature| > 100 ∨
      |gravity - npNearest phoenix_grav_arr gravity| > 1/2 then none
  else
    some (icatFetch icat (if rebin then "phoenix_v16_rebin" else "phoenix_v16")
      "PHOENIXv16 (Husser+13)"
      (npNearest phoenix_temp_arr temperature)
      metallicity
      (npNearest phoenix_grav_arr gravity))

/-- Embeds `get_atlas_phoenix_atmosphere`: reject outside 5000 - 5500
K, snap, reject a snap farther than 250 K or 0.5 dex, query `merged`. -/
def get_atlas_phoenix_atmosphere (icat : IcatQuery → Spectrum)
    (metallicity temperature gravity : ℚ) : Option FetchResult :=
  if temperature < 5000 ∨ temperature > 5500 then none
  else if |temperature - npNearest atlas_temp_arr temperature| > 250 ∨
      |gravity - npNearest atlas_grav_arr gravity| > 1/2 then none
  else
    some (icatFetch icat "merged" "ATLAS-PHOENIX merge"
      (npNearest atlas_temp_arr temperature)
      metallicity
      (npNearest atlas_grav_arr gravity))

/-- Embeds `get_merged_atmosphere`, the temperature-band dispatcher.
The final `none` is the implicit Python `None` when no branch matches;
the `temperature > 20000` branch is kept exactly as in the source (it
again calls the Castelli fetcher and its CMFGEN call is commented
out). -/
def get_merged_atmosphere (icat : IcatQuery → Spectrum)
    (metallicity temperature gravity : ℚ) : Option FetchResult :=
  if temperature < 5000 then
    get_phoenixv16_atmosphere icat metallicity temperature gravity true
  else if temperature > 5000 ∧ temperature < 5500 then
    get_atlas_phoenix_atmosphere icat metallicity temperature gravity
  else if temperature > 5500 then
    get_castelli_atmosphere icat metallicity temperature gravity
  else if temperature > 20000 then
    get_castelli_atmosphere icat metallicity temperature gravity
  else none

/-- Concrete interpolator stub with a non-zero flux, for witnesses. -/
def constIcat : IcatQuery → Spectrum := fun _ => ⟨[1], [3]⟩

/-- Concrete interpolator stub with identically zero flux. -/
def zeroIcat : IcatQuery → Spectrum := fun _ => ⟨[1], [0]⟩

/-- Modelled from the spec (section 4.1, step 2): on one axis, the
snapped value is a node of the array at minimal absolute (L1) distance
from the requested value, and every node listed before it in the array
(at a lower index) lies at strictly larger distance, so a tie between
equidistant nodes goes to the lowest-index node. -/
def isSpecNearest (arr : List ℚ) (x v : ℚ) : Prop :=
  (∀ w ∈ arr, |v - x| ≤ |w - x|) ∧
  ∃ pre post, arr = pre ++ v :: post ∧ ∀ w ∈ pre, |v - x| < |w - x|

/-- The fetcher post-condition of the spec: the spectrum comes from the
interpolator unmodified, and a diagnostic naming the family and the
queried parameters is emitted exactly when the flux is identically
zero. -/
def FetchReports (r : FetchResult) (icat : IcatQuery → Spectrum) (fam : String) : Prop :=
  r.sp = icat r.query ∧
  ((∀ f ∈ r.sp.flux, f = 0) →
    r.diagnostic = some ⟨fam, r.query.temperature, r.query.metallicity, r.query.gravity⟩) ∧
  ((∃ f ∈ r.sp.flux, f ≠ 0) → r.diagnostic = none)

/-! ### Helper lemmas about list minima and first matches -/

theorem foldl_min_le (l : List ℚ) (a : ℚ) :
    l.foldl min a ≤ a ∧ ∀ b ∈ l, l.foldl min a ≤ b := by
  induction l generalizing a with
  | nil => exact ⟨le_refl a, fun b hb => absurd hb (List.not_mem_nil b)⟩
  | cons c t ih =>
    obtain ⟨h1, h2⟩ := ih (min a c)
    rw [List.foldl_cons]
    refine ⟨h1.trans (min_le_left a c), fun b hb => ?_⟩
    rcases List.mem_cons.mp hb with rfl | hbt
    · exact h1.trans (min_le_right a b)
    · exact h2 b hbt

theorem foldl_min_mem (l : List ℚ) (a : ℚ) :
    l.foldl min a = a ∨ l.foldl min a ∈ l := by
  induction l generalizing a with
  | nil => exact Or.inl rfl
  | cons c t ih =>
    rw [List.foldl_cons]
    rcases ih (min a c) with h | h
    · rcases min_choice a c with hm | hm
      · exact Or.inl (by rw [h, hm])
      · exact Or.inr (by rw [h, hm]; exact List.mem_cons_self c t)
    · exact Or.inr (List.mem_cons_of_mem c h)

theorem listMin_le {l : List ℚ} {b : ℚ} (hb : b ∈ l) : listMin l ≤ b := by
  cases l with
  | nil => exact absurd hb (List.not_mem_nil b)
  | cons a t =>
    rcases List.mem_cons.mp hb with rfl | hbt
    · exact (foldl_min_le t b).1
    · exact (foldl_min_le t a).2 b hbt

theorem listMin_mem {l : List ℚ} (h : l ≠ []) : listMin l ∈ l := by
  cases l with
  | nil => exact absurd rfl h
  | cons a t =>
    rcases foldl_min_mem t a with h1 | h1
    · rw [listMin, h1]; exact List.mem_cons_self a t
    · rw [listMin]; exact List.mem_cons_of_mem a h1

/-! ### Characterization of the snapping step -/

theorem npNearest_has_find (arr : List ℚ) (x : ℚ) (h : arr ≠ []) :
    ∃ v, arr.find? (fun v => decide (|v - x| = listMin (absDiffs arr x))) = some v := by
  have hne : absDiffs arr x ≠ [] := by
    intro hcon
    exact h (List.map_eq_nil_iff.mp hcon)
  have hmem : listMin (absDiffs arr x) ∈ absDiffs arr x := listMin_mem hne
  obtain ⟨w, hw, hweq⟩ := List.mem_map.mp hmem
  have hsome : (arr.find? (fun v => decide (|v - x| = listMin (absDiffs arr x)))).isSome :=
    List.find?_isSome.mpr ⟨w, hw, by simp [hweq]⟩
  exact Option.isSome_iff_exists.mp hsome

theorem npNearest_eq_of_find {arr : List ℚ} {x v : ℚ}
    (h : arr.find? (fun w => decide (|w - x| = listMin (absDiffs arr x))) = some v) :
    npNearest arr x = v := by
  rw [npNearest, h, Option.getD_some]

theorem npNearest_mem {arr : List ℚ} (x : ℚ) (h : arr ≠ []) :
    npNearest arr x ∈ arr := by
  obtain ⟨v, hv⟩ := npNearest_has_find arr x h
  rw [npNearest_eq_of_find hv]
  exact List.mem_of_find?_eq_some hv

theorem npNearest_dist_le {arr : List ℚ} (x : ℚ) {w : ℚ} (hw : w ∈ arr) :
    |npNearest arr x - x| ≤ |w - x| := by
  obtain ⟨v, hv⟩ := npNearest_has_find arr x (List.ne_nil_of_mem hw)
  rw [npNearest_eq_of_find hv]
  have hpv : |v - x| = listMin (absDiffs arr x) := by
    have := List.find?_some hv
    simpa using this
  rw [hpv]
  exact listMin_le (List.mem_map.mpr ⟨w, hw, rfl⟩)

theorem npNearest_fixed {arr : List ℚ} {x : ℚ} (hx : x ∈ arr) :
    npNearest arr x = x := by
  have h := npNearest_dist_le x hx
  rw [sub_self, abs_zero] at h
  have h0 : |npNearest arr x - x| = 0 := le_antisymm h (abs_nonneg _)
  have := abs_eq_zero.mp h0
  linarith [sub_eq_zero.mp this]

theorem npNearest_isSpec (arr : List ℚ) (x : ℚ) (h : arr ≠ []) :
    isSpecNearest arr x (npNearest arr x) := by
  obtain ⟨v, hv⟩ := npNearest_has_find arr x h
  rw [npNearest_eq_of_find hv]
  have hdec := List.find?_eq_some.mp hv
  obtain ⟨hpv, pre, post, heq, hpre⟩ := hdec
  have hvmin : |v - x| = listMin (absDiffs arr x) := by simpa using hpv
  constructor
  · intro w hw
    rw [hvmin]
    exact listMin_le (List.mem_map.mpr ⟨w, hw, rfl⟩)
  · refine ⟨pre, post, heq, fun w hwpre => ?_⟩
    have hwarr : w ∈ arr := by
      rw [heq]
      exact List.mem_append_left _ hwpre
    have hle : listMin (absDiffs arr x) ≤ |w - x| :=
      listMin_le (List.mem_map.mpr ⟨w, hwarr, rfl⟩)
    have hne : ¬ (|w - x| = listMin (absDiffs arr x)) := by
      have := hpre w hwpre
      simpa using this
    rw [hvmin]
    exact lt_of_le_of_ne hle (fun hcon => hne hcon.symm)

/-! ### Concrete facts about the node arrays -/

theorem mem_np_arange {start stop step : ℚ} (i : ℕ)
    (hi : i < (Int.ceil ((stop - start) / step)).toNat) :
    start + step * (i : ℚ) ∈ np_arange start stop step := by
  rw [np_arange]
  exact List.mem_map_of_mem _ (List.mem_range.mpr hi)

theorem of_mem_np_arange {start stop step x : ℚ}
    (hx : x ∈ np_arange start stop step) :
    ∃ i : ℕ, i < (Int.ceil ((stop - start) / step)).toNat ∧
      x = start + step * (i : ℚ) := by
  rw [np_arange] at hx
  obtain ⟨i, hi, heq⟩ := List.mem_map.mp hx
  exact ⟨i, List.mem_range.mp hi, heq.symm⟩

theorem castelli_t1_count :
    (Int.ceil ((((13000 : ℚ) + 1) - 3000) / 250)).toNat = 41 := by
  rw [show ⌈(((13000 : ℚ) + 1) - 3000) / 250⌉ = (41 : ℤ) from by
    norm_num [Int.ceil_eq_iff]]
  rfl

theorem castelli_grav_count :
    (Int.ceil ((((5 : ℚ) + 1/10) - 2) / (1/2))).toNat = 7 := by
  rw [show ⌈(((5 : ℚ) + 1/10) - 2) / (1/2)⌉ = (7 : ℤ) from by
    norm_num [Int.ceil_eq_iff]]
  rfl

theorem phoenix_t1_count :
    (Int.ceil ((((7000 : ℚ) + 1) - 2300) / 100)).toNat = 48 := by
  rw [show ⌈(((7000 : ℚ) + 1) - 2300) / 100⌉ = (48 : ℤ) from by
    norm_num [Int.ceil_eq_iff]]
  rfl

theorem phoenix_grav_count :
    (Int.ceil ((((6 : ℚ) + 1/10) - 2) / (1/2))).toNat = 9 := by
  rw [show ⌈(((6 : ℚ) + 1/10) - 2) / (1/2)⌉ = (9 : ℤ) from by
    norm_num [Int.ceil_eq_iff]]
  rfl

theorem atlas_grav_count :
    (Int.ceil ((((5 : ℚ) + 1/10) - 0) / (1/2))).toNat = 11 := by
  rw [show ⌈(((5 : ℚ) + 1/10) - 0) / (1/2)⌉ = (11 : ℤ) from by
    norm_num [Int.ceil_eq_iff]]
  rfl

theorem mem_castelli_temp_3000 : (3000 : ℚ) ∈ castelli_temp_arr := by
  rw [castelli_temp_arr, castelli_t1]
  refine List.mem_append_left _ ?_
  have h := @mem_np_arange 3000 (13000 + 1) 250 0
    (by rw [castelli_t1_count]; norm_num)
  simpa using h

theorem mem_castelli_grav_2 : (2 : ℚ) ∈ castelli_grav_arr := by
  rw [castelli_grav_arr]
  have h := @mem_np_arange 2 (5 + 1/10) (1/2) 0
    (by rw [castelli_grav_count]; norm_num)
  simpa using h

theorem mem_castelli_grav_4 : (4 : ℚ) ∈ castelli_grav_arr := by
  rw [castelli_grav_arr]
  have h := @mem_np_arange 2 (5 + 1/10) (1/2) 4
    (by rw [castelli_grav_count]; norm_num)
  have : (2 : ℚ) + 1/2 * ((4 : ℕ) : ℚ) = 4 := by norm_num
  rwa [this] at h

theorem mem_phoenix_temp_2300 : (2300 : ℚ) ∈ phoenix_temp_arr := by
  rw [phoenix_temp_arr, phoenix_t1]
  refine List.mem_append_left _ ?_
  have h := @mem_np_arange 2300 (7000 + 1) 100 0
    (by rw [phoenix_t1_count]; norm_num)
  simpa using h

theorem mem_phoenix_grav_2 : (2 : ℚ) ∈ phoenix_grav_arr := by
  rw [phoenix_grav_arr]
  have h := @mem_np_arange 2 (6 + 1/10) (1/2) 0
    (by rw [phoenix_grav_count]; norm_num)
  simpa using h

theorem mem_atlas_temp_5250 : (5250 : ℚ) ∈ atlas_temp_arr := by
  rw [atlas_temp_arr]
  exact List.mem_singleton.mpr rfl

theorem mem_atlas_grav_0 : (0 : ℚ) ∈ atlas_grav_arr := by
  rw [atlas_grav_arr]
  have h := @mem_np_arange 0 (5 + 1/10) (1/2) 0
    (by rw [atlas_grav_count]; norm_num)
  simpa using h

theorem mem_atlas_grav_4 : (4 : ℚ) ∈ atlas_grav_arr := by
  rw [atlas_grav_arr]
  have h := @mem_np_arange 0 (5 + 1/10) (1/2) 8
    (by rw [atlas_grav_count]; norm_num)
  have : (0 : ℚ) + 1/2 * ((8 : ℕ) : ℚ) = 4 := by norm_num
  rwa [this] at h

theorem castelli_temp_ne_nil : castelli_temp_arr ≠ [] :=
  List.ne_nil_of_mem mem_castelli_temp_3000

theorem castelli_grav_ne_nil : castelli_grav_arr ≠ [] :=
  List.ne_nil_of_mem mem_castelli_grav_2

theorem phoenix_temp_ne_nil : phoenix_temp_arr ≠ [] :=
  List.ne_nil_of_mem mem_phoenix_temp_2300

theorem phoenix_grav_ne_nil : phoenix_grav_arr ≠ [] :=
  List.ne_nil_of_mem mem_phoenix_grav_2

theorem atlas_temp_ne_nil : atlas_temp_arr ≠ [] :=
  List.ne_nil_of_mem mem_atlas_temp_5250

theorem atlas_grav_ne_nil : atlas_grav_arr ≠ [] :=
  List.ne_nil_of_mem mem_atlas_grav_0

theorem phoenix_grav_le_6 {w : ℚ} (hw : w ∈ phoenix_grav_arr) : w ≤ 6 := by
  rw [phoenix_grav_arr] at hw
  obtain ⟨i, hi, heq⟩ := of_mem_np_arange hw
  rw [phoenix_grav_count] at hi
  have hcast : (i : ℚ) ≤ 8 := by
    have : (i : ℚ) ≤ ((8 : ℕ) : ℚ) := Nat.cast_le.mpr (Nat.lt_succ_iff.mp hi)
    simpa using this
  rw [heq]
  linarith

theorem atlas_grav_le_5 {w : ℚ} (hw : w ∈ atlas_grav_arr) : w ≤ 5 := by
  rw [atlas_grav_arr] at hw
  obtain ⟨i, hi, heq⟩ := of_mem_np_arange hw
  rw [atlas_grav_count] at hi
  have hcast : (i : ℚ) ≤ 10 := by
    have : (i : ℚ) ≤ ((10 : ℕ) : ℚ) := Nat.cast_le.mpr (Nat.lt_succ_iff.mp hi)
    simpa using this
  rw [heq]
  linarith

theorem phoenix_temp_dist_2350 {w : ℚ} (hw : w ∈ phoenix_temp_arr) :
    50 ≤ |w - 2350| := by
  rw [phoenix_temp_arr] at hw
  rcases List.mem_append.mp hw with h1 | h2
  · rw [phoenix_t1] at h1
    obtain ⟨i, _, heq⟩ := of_mem_np_arange h1
    rcases Nat.eq_zero_or_pos i with hz | hpos
    · rw [heq, hz]
      rw [show (2300 : ℚ) + 100 * ((0 : ℕ) : ℚ) - 2350 = -50 by norm_num, abs_neg,
        abs_of_nonneg (by norm_num : (0 : ℚ) ≤ 50)]
    · have hcast : (1 : ℚ) ≤ (i : ℚ) := by
        have : ((1 : ℕ) : ℚ) ≤ (i : ℚ) := Nat.cast_le.mpr hpos
        simpa using this
      have hge : (50 : ℚ) ≤ w - 2350 := by rw [heq]; linarith
      exact hge.trans (le_abs_self _)
  · rw [phoenix_t2] at h2
    obtain ⟨i, _, heq⟩ := of_mem_np_arange h2
    have hcast : (0 : ℚ) ≤ (i : ℚ) := Nat.cast_nonneg i
    have hge : (50 : ℚ) ≤ w - 2350 := by rw [heq]; linarith
    exact hge.trans (le_abs_self _)

/-! ### Evaluation lemmas at the witness points -/

theorem npNearest_atlas_temp (x : ℚ) : npNearest atlas_temp_arr x = 5250 := by
  have h := @npNearest_mem atlas_temp_arr x atlas_temp_ne_nil
  rw [atlas_temp_arr] at h
  exact List.mem_singleton.mp h

theorem castelli_eval (icat : IcatQuery → Spectrum) (m : ℚ) :
    get_castelli_atmosphere icat m 3000 2 =
      some (icatFetch icat "ck04models" "Castelli and Kurucz 2004" 3000 m (5/2)) := by
  rw [get_castelli_atmosphere, if_neg (by norm_num : ¬ (3000 : ℚ) < 3000),
    npNearest_fixed mem_castelli_temp_3000, npNearest_fixed mem_castelli_grav_2,
    if_pos (by norm_num : (2 : ℚ) < 5/2)]

theorem phoenixv16_eval (icat : IcatQuery → Spectrum) (m : ℚ) (rebin : Bool) :
    get_phoenixv16_atmosphere icat m 2300 2 rebin =
      some (icatFetch icat (if rebin then "phoenix_v16_rebin" else "phoenix_v16")
        "PHOENIXv16 (Husser+13)" 2300 m 2) := by
  rw [get_phoenixv16_atmosphere,
    if_neg (by norm_num : ¬ ((2300 : ℚ) < 2300 ∨ (2300 : ℚ) > 12000 ∨ (2 : ℚ) < 2)),
    npNearest_fixed mem_phoenix_temp_2300, npNearest_fixed mem_phoenix_grav_2]
  rw [if_neg]
  norm_num

theorem atlas_eval (icat : IcatQuery → Spectrum) (m : ℚ) :
    get_atlas_phoenix_atmosphere icat m 5250 4 =
      some (icatFetch icat "merged" "ATLAS-PHOENIX merge" 5250 m 4) := by
  rw [get_atlas_phoenix_atmosphere,
    if_neg (by norm_num : ¬ ((5250 : ℚ) < 5000 ∨ (5250 : ℚ) > 5500)),
    npNearest_atlas_temp, npNearest_fixed mem_atlas_grav_4]
  rw [if_neg]
  norm_num

/-! ### The flux-validation post-condition -/

theorem allFluxZero_iff (sp : Spectrum) :
    allFluxZero sp = true ↔ ∀ f ∈ sp.flux, f = 0 := by
  simp [allFluxZero, List.all_eq_true]

theorem icatFetch_reports (icat : IcatQuery → Spectrum) (grid fam : String)
    (t m g : ℚ) : FetchReports (icatFetch icat grid fam t m g) icat fam := by
  refine ⟨rfl, fun hz => ?_, fun hnz => ?_⟩
  · simp only [icatFetch] at hz ⊢
    rw [if_pos ((allFluxZero_iff _).mpr hz)]
  · simp only [icatFetch] at hnz ⊢
    obtain ⟨f, hf, hfne⟩ := hnz
    rw [if_neg]
    intro hcon
    exact hfne ((allFluxZero_iff _).mp hcon f hf)

/-! ### The claims -/

/-- Claim C1: for every metallicity and gravity, the merged resolver
dispatches on temperature alone and forwards the request unchanged to
exactly one single-grid fetcher: below 5000 K the PHOENIX-v16 fetcher,
strictly between 5000 and 5500 K the ATLAS/PHOENIX merge fetcher, and
above 5500 K the Castelli-Kurucz fetcher; in every case the result is
that of one of these three fetchers on the unchanged arguments or no
result at all, so the resolver itself performs no snapping and never
invokes a CMFGEN fetcher. -/
theorem merged_dispatch_bands (icat : IcatQuery → Spectrum) (m t g : ℚ) :
    (t < 5000 →
      get_merged_atmosphere icat m t g = get_phoenixv16_atmosphere icat m t g true) ∧
    (5000 < t ∧ t < 5500 →
      get_merged_atmosphere icat m t g = get_atlas_phoenix_atmosphere icat m t g) ∧
    (5500 < t →
      get_merged_atmosphere icat m t g = get_castelli_atmosphere icat m t g) ∧
    (get_merged_atmosphere icat m t g = none ∨
      get_merged_atmosphere icat m t g = get_phoenixv16_atmosphere icat m t g true ∨
      get_merged_atmosphere icat m t g = get_atlas_phoenix_atmosphere icat m t g ∨
      get_merged_atmosphere icat m t g = get_castelli_atmosphere icat m t g) := by
  refine ⟨fun h => ?_, fun h => ?_, fun h => ?_, ?_⟩
  · rw [get_merged_atmosphere, if_pos h]
  · rw [get_merged_atmosphere, if_neg (by linarith [h.1] : ¬ t < 5000), if_pos h]
  · rw [get_merged_atmosphere, if_neg (by linarith : ¬ t < 5000),
      if_neg (by rintro ⟨_, h2⟩; linarith : ¬ (t > 5000 ∧ t < 5500)), if_pos h]
  · rw [get_merged_atmosphere]
    split_ifs <;> simp

/-- Witness for C1 at the three profile temperatures 4999, 5200 and
6000 of the spec. -/
theorem merged_dispatch_bands_witness :
    get_merged_atmosphere constIcat 0 4999 4 =
      get_phoenixv16_atmosphere constIcat 0 4999 4 true ∧
    get_merged_atmosphere constIcat 0 5200 4 =
      get_atlas_phoenix_atmosphere constIcat 0 5200 4 ∧
    get_merged_atmosphere constIcat 0 6000 4 =
      get_castelli_atmosphere constIcat 0 6000 4 :=
  ⟨(merged_dispatch_bands constIcat 0 4999 4).1 (by norm_num),
   (merged_dispatch_bands constIcat 0 5200 4).2.1 (by norm_num),
   (merged_dispatch_bands constIcat 0 6000 4).2.2.1 (by norm_num)⟩

/-- Claim C2: at temperature exactly 5000 the merged resolver matches
no dispatch branch and returns the no-result sentinel for every
interpolator, metallicity and gravity, so no single-grid fetcher and
no interpolator is ever invoked. -/
theorem merged_gap_5000 (icat : IcatQuery → Spectrum) (m g : ℚ) :
    get_merged_atmosphere icat m 5000 g = none := by
  rw [get_merged_atmosphere]
  norm_num

/-- Claim C10: at temperature exactly 5500 the merged resolver also
matches no dispatch branch and returns the no-result sentinel for
every interpolator, metallicity and gravity - a second boundary gap
besides the documented one at 5000. -/
theorem merged_gap_5500 (icat : IcatQuery → Spectrum) (m g : ℚ) :
    get_merged_atmosphere icat m 5500 g = none := by
  rw [get_merged_atmosphere]
  norm_num

/-- Claim C3: each snapping fetcher rejects out-of-domain requests
before querying the interpolator and returns the no-result sentinel:
PHOENIX-v16 whenever temperature < 2300 or gravity < 2, Castelli-Kurucz
whenever temperature < 3000, and the ATLAS/PHOENIX merge whenever
temperature is outside 5000 - 5500, while both endpoints 5000 and 5500
are accepted; the rejections hold for every interpolator, hence the
interpolator is never invoked there. -/
theorem fetcher_domain_reject (icat : IcatQuery → Spectrum) (m t g : ℚ) (rebin : Bool) :
    (t < 2300 ∨ g < 2 → get_phoenixv16_atmosphere icat m t g rebin = none) ∧
    (t < 3000 → get_castelli_atmosphere icat m t g = none) ∧
    (t < 5000 ∨ t > 5500 → get_atlas_phoenix_atmosphere icat m t g = none) ∧
    (get_atlas_phoenix_atmosphere icat m 5000 4).isSome = true ∧
    (get_atlas_phoenix_atmosphere icat m 5500 4).isSome = true := by
  have hg4 : npNearest atlas_grav_arr 4 = 4 := npNearest_fixed mem_atlas_grav_4
  refine ⟨fun h => ?_, fun h => ?_, fun h => ?_, ?_, ?_⟩
  · have hc : t < 2300 ∨ t > 12000 ∨ g < 2 := by
      rcases h with h | h
      · exact Or.inl h
      · exact Or.inr (Or.inr h)
    rw [get_phoenixv16_atmosphere, if_pos hc]
  · rw [get_castelli_atmosphere, if_pos h]
  · rw [get_atlas_phoenix_atmosphere, if_pos h]
  · have hsnap : ¬ (|(5000 : ℚ) - npNearest atlas_temp_arr 5000| > 250 ∨
        |(4 : ℚ) - npNearest atlas_grav_arr 4| > 1/2) := by
      push_neg
      rw [npNearest_atlas_temp, hg4]
      constructor
      · rw [abs_of_nonpos (by norm_num : (5000 : ℚ) - 5250 ≤ 0)]
        norm_num
      · norm_num
    rw [get_atlas_phoenix_atmosphere,
      if_neg (by norm_num : ¬ ((5000 : ℚ) < 5000 ∨ (5000 : ℚ) > 5500)), if_neg hsnap]
    rfl
  · have hsnap : ¬ (|(5500 : ℚ) - npNearest atlas_temp_arr 5500| > 250 ∨
        |(4 : ℚ) - npNearest atlas_grav_arr 4| > 1/2) := by
      push_neg
      rw [npNearest_atlas_temp, hg4]
      constructor
      · rw [abs_of_nonneg (by norm_num : (0 : ℚ) ≤ 5500 - 5250)]
        norm_num
      · norm_num
    rw [get_atlas_phoenix_atmosphere,
      if_neg (by norm_num : ¬ ((5500 : ℚ) < 5000 ∨ (5500 : ℚ) > 5500)), if_neg hsnap]
    rfl

/-- Witness for C3: concrete out-of-domain requests to the three
snapping fetchers are all rejected. -/
theorem fetcher_domain_reject_witness :
    get_phoenixv16_atmosphere constIcat 0 2200 4 true = none ∧
    get_castelli_atmosphere constIcat 0 2900 4 = none ∧
    get_atlas_phoenix_atmosphere constIcat 0 4900 4 = none :=
  ⟨(fetcher_domain_reject constIcat 0 2200 4 true).1 (Or.inl (by norm_num)),
   (fetcher_domain_reject constIcat 0 2900 4 true).2.1 (by norm_num),
   (fetcher_domain_reject constIcat 0 4900 4 true).2.2.1 (Or.inl (by norm_num))⟩

/-- Claim C4: for the two families that define a maximum node distance,
a snap distance above the tolerance on either axis (100 K or 0.5 dex
for PHOENIX-v16, 250 K or 0.5 dex for the ATLAS/PHOENIX merge) makes
the fetcher return the no-result sentinel for every interpolator, hence
without querying it; in-domain requests within tolerance reach the
interpolator, in particular the Castelli-Kurucz request (21000, 4.9)
and the PHOENIX-v16 request (2350, 2.0), whose temperature snap
distance 50 is within the tolerance 100. -/
theorem snap_tolerance (icat : IcatQuery → Spectrum) (m t g : ℚ) (rebin : Bool) :
    ((|t - npNearest phoenix_temp_arr t| > 100 ∨
        |g - npNearest phoenix_grav_arr g| > 1/2) →
      get_phoenixv16_atmosphere icat m t g rebin = none) ∧
    ((|t - npNearest atlas_temp_arr t| > 250 ∨
        |g - npNearest atlas_grav_arr g| > 1/2) →
      get_atlas_phoenix_atmosphere icat m t g = none) ∧
    (¬ (t < 2300 ∨ t > 12000 ∨ g < 2) →
      ¬ (|t - npNearest phoenix_temp_arr t| > 100 ∨
          |g - npNearest phoenix_grav_arr g| > 1/2) →
      (get_phoenixv16_atmosphere icat m t g rebin).isSome = true) ∧
    (¬ (t < 5000 ∨ t > 5500) →
      ¬ (|t - npNearest atlas_temp_arr t| > 250 ∨
          |g - npNearest atlas_grav_arr g| > 1/2) →
      (get_atlas_phoenix_atmosphere icat m t g).isSome = true) ∧
    (get_castelli_atmosphere icat m 21000 (49/10)).isSome = true ∧
    (get_phoenixv16_atmosphere icat m 2350 2 rebin).isSome = true := by
  refine ⟨fun h => ?_, fun h => ?_, fun h1 h2 => ?_, fun h1 h2 => ?_, ?_, ?_⟩
  · by_cases hgate : t < 2300 ∨ t > 12000 ∨ g < 2
    · rw [get_phoenixv16_atmosphere, if_pos hgate]
    · rw [get_phoenixv16_atmosphere, if_neg hgate, if_pos h]
  · by_cases hgate : t < 5000 ∨ t > 5500
    · rw [get_atlas_phoenix_atmosphere, if_pos hgate]
    · rw [get_atlas_phoenix_atmosphere, if_neg hgate, if_pos h]
  · rw [get_phoenixv16_atmosphere, if_neg h1, if_neg h2]
    rfl
  · rw [get_atlas_phoenix_atmosphere, if_neg h1, if_neg h2]
    rfl
  · rw [get_castelli_atmosphere, if_neg (by norm_num : ¬ (21000 : ℚ) < 3000)]
    rfl
  · have hdist : |(2350 : ℚ) - npNearest phoenix_temp_arr 2350| ≤ 50 := by
      rw [abs_sub_comm]
      have hle := npNearest_dist_le 2350 mem_phoenix_temp_2300
      have h50 : |(2300 : ℚ) - 2350| = 50 := by
        rw [abs_of_nonpos (by norm_num : (2300 : ℚ) - 2350 ≤ 0)]
        norm_num
      rw [h50] at hle
      exact hle
    have hsnap : ¬ (|(2350 : ℚ) - npNearest phoenix_temp_arr 2350| > 100 ∨
        |(2 : ℚ) - npNearest phoenix_grav_arr 2| > 1/2) := by
      push_neg
      refine ⟨by linarith, ?_⟩
      rw [npNearest_fixed mem_phoenix_grav_2, sub_self, abs_zero]
      norm_num
    rw [get_phoenixv16_atmosphere,
      if_neg (by norm_num : ¬ ((2350 : ℚ) < 2300 ∨ (2350 : ℚ) > 12000 ∨ (2 : ℚ) < 2)),
      if_neg hsnap]
    rfl

/-- Witness for C4: at (5250, 7) both tolerance-checking fetchers
reject, since every gravity node is at distance above 0.5 from 7, and
at (2300, 2) and (5250, 4) the in-tolerance requests reach the
interpolator. -/
theorem snap_tolerance_witness :
    get_phoenixv16_atmosphere constIcat 0 5250 7 true = none ∧
    get_atlas_phoenix_atmosphere constIcat 0 5250 7 = none ∧
    (get_phoenixv16_atmosphere constIcat 0 2300 2 true).isSome = true ∧
    (get_atlas_phoenix_atmosphere constIcat 0 5250 4).isSome = true := by
  have hp : |(7 : ℚ) - npNearest phoenix_grav_arr 7| > 1/2 := by
    have h6 := phoenix_grav_le_6 (@npNearest_mem phoenix_grav_arr 7 phoenix_grav_ne_nil)
    rw [abs_of_nonneg (by linarith)]
    linarith
  have ha : |(7 : ℚ) - npNearest atlas_grav_arr 7| > 1/2 := by
    have h5 := atlas_grav_le_5 (@npNearest_mem atlas_grav_arr 7 atlas_grav_ne_nil)
    rw [abs_of_nonneg (by linarith)]
    linarith
  refine ⟨(snap_tolerance constIcat 0 5250 7 true).1 (Or.inr hp),
    (snap_tolerance constIcat 0 5250 7 true).2.1 (Or.inr ha),
    (snap_tolerance constIcat 0 2300 2 true).2.2.1 (by norm_num) ?_,
    (snap_tolerance constIcat 0 5250 4 true).2.2.2.1 (by norm_num) ?_⟩
  · push_neg
    rw [npNearest_fixed mem_phoenix_temp_2300, npNearest_fixed mem_phoenix_grav_2]
    norm_num
  · push_neg
    rw [npNearest_atlas_temp, npNearest_fixed mem_atlas_grav_4]
    norm_num

/-- Claim C5: for every snapping fetcher, the snapped temperature and
the snapped gravity are computed independently on each axis as the
node of the family array at minimal absolute (L1) distance from the
requested value, with a tie between equidistant nodes resolved to the
lowest-index node, as expressed by `isSpecNearest`. -/
theorem snap_axiswise_nearest (x y : ℚ) :
    isSpecNearest castelli_temp_arr x (npNearest castelli_temp_arr x) ∧
    isSpecNearest castelli_grav_arr y (npNearest castelli_grav_arr y) ∧
    isSpecNearest phoenix_temp_arr x (npNearest phoenix_temp_arr x) ∧
    isSpecNearest phoenix_grav_arr y (npNearest phoenix_grav_arr y) ∧
    isSpecNearest atlas_temp_arr x (npNearest atlas_temp_arr x) ∧
    isSpecNearest atlas_grav_arr y (npNearest atlas_grav_arr y) :=
  ⟨npNearest_isSpec _ x castelli_temp_ne_nil,
   npNearest_isSpec _ y castelli_grav_ne_nil,
   npNearest_isSpec _ x phoenix_temp_ne_nil,
   npNearest_isSpec _ y phoenix_grav_ne_nil,
   npNearest_isSpec _ x atlas_temp_ne_nil,
   npNearest_isSpec _ y atlas_grav_ne_nil⟩

/-- Claim C6: whenever the Castelli-Kurucz fetcher returns a result,
the gravity forwarded to the interpolator is at least 2.5, and it is
exactly 2.5 whenever the nearest-node snap produced a value below
2.5. -/
theorem castelli_gravity_clamp (icat : IcatQuery → Spectrum) (m t g : ℚ)
    (r : FetchResult) (h : get_castelli_atmosphere icat m t g = some r) :
    (npNearest castelli_grav_arr g < 5/2 → r.query.gravity = 5/2) ∧
    5/2 ≤ r.query.gravity := by
  rw [get_castelli_atmosphere] at h
  by_cases ht : t < 3000
  · rw [if_pos ht] at h
    cases h
  · rw [if_neg ht] at h
    injection h with h2
    subst h2
    simp only [icatFetch]
    by_cases hg : npNearest castelli_grav_arr g < 5/2
    · rw [if_pos hg]
      exact ⟨fun _ => rfl, by norm_num⟩
    · rw [if_neg hg]
      exact ⟨fun hcon => absurd hcon hg, le_of_not_lt hg⟩

/-- Witness for C6 at (3000, 2): the snapped gravity 2 is below 2.5 and
the forwarded gravity is exactly 2.5. -/
theorem castelli_gravity_clamp_witness :
    (npNearest castelli_grav_arr 2 < 5/2 →
      (icatFetch constIcat "ck04models" "Castelli and Kurucz 2004"
        3000 0 (5/2)).query.gravity = 5/2) ∧
    5/2 ≤ (icatFetch constIcat "ck04models" "Castelli and Kurucz 2004"
        3000 0 (5/2)).query.gravity :=
  castelli_gravity_clamp constIcat 0 3000 2 _ (castelli_eval constIcat 0)

/-- Claim C7: nearest-node snapping is idempotent on every node array
of the three snapping fetchers: a requested value that is exactly a
node of the array snaps to itself. -/
theorem snap_idempotent (a b c d e f : ℚ)
    (h1 : a ∈ castelli_temp_arr) (h2 : b ∈ castelli_grav_arr)
    (h3 : c ∈ phoenix_temp_arr) (h4 : d ∈ phoenix_grav_arr)
    (h5 : e ∈ atlas_temp_arr) (h6 : f ∈ atlas_grav_arr) :
    npNearest castelli_temp_arr a = a ∧ npNearest castelli_grav_arr b = b ∧
    npNearest phoenix_temp_arr c = c ∧ npNearest phoenix_grav_arr d = d ∧
    npNearest atlas_temp_arr e = e ∧ npNearest atlas_grav_arr f = f :=
  ⟨npNearest_fixed h1, npNearest_fixed h2, npNearest_fixed h3,
   npNearest_fixed h4, npNearest_fixed h5, npNearest_fixed h6⟩

/-- Witness for C7 at one node of each array. -/
theorem snap_idempotent_witness :
    npNearest castelli_temp_arr 3000 = 3000 ∧ npNearest castelli_grav_arr 2 = 2 ∧
    npNearest phoenix_temp_arr 2300 = 2300 ∧ npNearest phoenix_grav_arr 2 = 2 ∧
    npNearest atlas_temp_arr 5250 = 5250 ∧ npNearest atlas_grav_arr 0 = 0 :=
  snap_idempotent 3000 2 2300 2 5250 0 mem_castelli_temp_3000 mem_castelli_grav_2
    mem_phoenix_temp_2300 mem_phoenix_grav_2 mem_atlas_temp_5250 mem_atlas_grav_0

/-- Claim C8: every fetcher returns the interpolator spectrum with its
flux unmodified and emits the could-not-find diagnostic naming the
family and the queried parameters exactly when every flux value is
zero; any non-zero flux value suppresses the diagnostic, and the
spectrum is returned to the caller in both cases. -/
theorem zero_flux_reporting (icat : IcatQuery → Spectrum) (m t g : ℚ) (rebin : Bool) :
    FetchReports (get_kurucz_atmosphere icat m t g) icat "Kurucz 1993" ∧
    FetchReports (get_nextgen_atmosphere icat m t g) icat "NextGen" ∧
    FetchReports (get_amesdusty_atmosphere icat m t g) icat "AMESdusty Allard+ 2000" ∧
    FetchReports (get_phoenix_atmosphere icat m t g) icat "PHOENIX BT-Settl (Allard+ 2011" ∧
    FetchReports (get_cmfgenRot_atmosphere icat m t g) icat "CMFGEN rotating (Fierro+15)" ∧
    FetchReports (get_cmfgenNoRot_atmosphere icat m t g) icat "CMFGEN non-rotating (Fierro+15)" ∧
    (∀ r, get_castelli_atmosphere icat m t g = some r →
      FetchReports r icat "Castelli and Kurucz 2004") ∧
    (∀ r, get_phoenixv16_atmosphere icat m t g rebin = some r →
      FetchReports r icat "PHOENIXv16 (Husser+13)") ∧
    (∀ r, get_atlas_phoenix_atmosphere icat m t g = some r →
      FetchReports r icat "ATLAS-PHOENIX merge") := by
  refine ⟨icatFetch_reports icat _ _ _ _ _, icatFetch_reports icat _ _ _ _ _,
    icatFetch_reports icat _ _ _ _ _, icatFetch_reports icat _ _ _ _ _,
    icatFetch_reports icat _ _ _ _ _, icatFetch_reports icat _ _ _ _ _,
    fun r hr => ?_, fun r hr => ?_, fun r hr => ?_⟩
  · rw [get_castelli_atmosphere] at hr
    by_cases ht : t < 3000
    · rw [if_pos ht] at hr
      cases hr
    · rw [if_neg ht] at hr
      injection hr with h2
      subst h2
      exact icatFetch_reports icat _ _ _ _ _
  · rw [get_phoenixv16_atmosphere] at hr
    by_cases h1 : t < 2300 ∨ t > 12000 ∨ g < 2
    · rw [if_pos h1] at hr
      cases hr
    · rw [if_neg h1] at hr
      by_cases h2 : |t - npNearest phoenix_temp_arr t| > 100 ∨
          |g - npNearest phoenix_grav_arr g| > 1/2
      · rw [if_pos h2] at hr
        cases hr
      · rw [if_neg h2] at hr
        injection hr with h3
        subst h3
        exact icatFetch_reports icat _ _ _ _ _
  · rw [get_atlas_phoenix_atmosphere] at hr
    by_cases h1 : t < 5000 ∨ t > 5500
    · rw [if_pos h1] at hr
      cases hr
    · rw [if_neg h1] at hr
      by_cases h2 : |t - npNearest atlas_temp_arr t| > 250 ∨
          |g - npNearest atlas_grav_arr g| > 1/2
      · rw [if_pos h2] at hr
        cases hr
      · rw [if_neg h2] at hr
        injection hr with h3
        subst h3
        exact icatFetch_reports icat _ _ _ _ _

/-- Witness for C8: an all-zero interpolator makes the Kurucz and
Castelli fetchers emit the diagnostic, and a non-zero interpolator
suppresses it. -/
theorem zero_flux_reporting_witness :
    (get_kurucz_atmosphere zeroIcat 3 20000 4).diagnostic =
      some ⟨"Kurucz 1993", 20000, 3, 4⟩ ∧
    (get_kurucz_atmosphere constIcat 3 20000 4).diagnostic = none ∧
    (icatFetch zeroIcat "ck04models" "Castelli and Kurucz 2004" 3000 3
      (5/2)).diagnostic = some ⟨"Castelli and Kurucz 2004", 3000, 3, 5/2⟩ ∧
    (icatFetch constIcat "ck04models" "Castelli and Kurucz 2004" 3000 3
      (5/2)).diagnostic = none := by
  refine ⟨?_, ?_, ?_, ?_⟩
  · exact ((zero_flux_reporting zeroIcat 3 20000 4 true).1).2.1
      (by intro fl hfl; simpa [get_kurucz_atmosphere, icatFetch, zeroIcat] using hfl)
  · exact ((zero_flux_reporting constIcat 3 20000 4 true).1).2.2
      ⟨3, by simp [get_kurucz_atmosphere, icatFetch, constIcat], by norm_num⟩
  · exact ((zero_flux_reporting zeroIcat 3 3000 2 true).2.2.2.2.2.2.1) _
      (castelli_eval zeroIcat 3)
      |>.2.1 (by intro fl hfl; simpa [icatFetch, zeroIcat] using hfl)
  · exact ((zero_flux_reporting constIcat 3 3000 2 true).2.2.2.2.2.2.1) _
      (castelli_eval constIcat 3)
      |>.2.2 ⟨3, by simp [icatFetch, constIcat], by norm_num⟩

/-- Claim C9: the metallicity received by every single-grid fetcher is
forwarded to the interpolator exactly unchanged, with no snapping,
clamping or transformation. -/
theorem metallicity_unchanged (icat : IcatQuery → Spectrum) (m t g : ℚ) (rebin : Bool) :
    (get_kurucz_atmosphere icat m t g).query.metallicity = m ∧
    (get_nextgen_atmosphere icat m t g).query.metallicity = m ∧
    (get_amesdusty_atmosphere icat m t g).query.metallicity = m ∧
    (get_phoenix_atmosphere icat m t g).query.metallicity = m ∧
    (get_cmfgenRot_atmosphere icat m t g).query.metallicity = m ∧
    (get_cmfgenNoRot_atmosphere icat m t g).query.metallicity = m ∧
    (∀ r, get_castelli_atmosphere icat m t g = some r → r.query.metallicity = m) ∧
    (∀ r, get_phoenixv16_atmosphere icat m t g rebin = some r →
      r.query.metallicity = m) ∧
    (∀ r, get_atlas_phoenix_atmosphere icat m t g = some r →
      r.query.metallicity = m) := by
  refine ⟨rfl, rfl, rfl, rfl, rfl, rfl, fun r hr => ?_, fun r hr => ?_, fun r hr => ?_⟩
  · rw [get_castelli_atmosphere] at hr
    by_cases ht : t < 3000
    · rw [if_pos ht] at hr
      cases hr
    · rw [if_neg ht] at hr
      injection hr with h2
      subst h2
      rfl
  · rw [get_phoenixv16_atmosphere] at hr
    by_cases h1 : t < 2300 ∨ t > 12000 ∨ g < 2
    · rw [if_pos h1] at hr
      cases hr
    · rw [if_neg h1] at hr
      by_cases h2 : |t - npNearest phoenix_temp_arr t| > 100 ∨
          |g - npNearest phoenix_grav_arr g| > 1/2
      · rw [if_pos h2] at hr
        cases hr
      · rw [if_neg h2] at hr
        injection hr with h3
        subst h3
        rfl
  · rw [get_atlas_phoenix_atmosphere] at hr
    by_cases h1 : t < 5000 ∨ t > 5500
    · rw [if_pos h1] at hr
      cases hr
    · rw [if_neg h1] at hr
      by_cases h2 : |t - npNearest atlas_temp_arr t| > 250 ∨
          |g - npNearest atlas_grav_arr g| > 1/2
      · rw [if_pos h2] at hr
        cases hr
      · rw [if_neg h2] at hr
        injection hr with h3
        subst h3
        rfl

/-- Witness for C9 at metallicity 7/3 through the Kurucz, Castelli,
PHOENIX-v16 and ATLAS/PHOENIX fetchers. -/
theorem metallicity_unchanged_witness :
    (get_kurucz_atmosphere constIcat (7/3) 20000 4).query.metallicity = 7/3 ∧
    (icatFetch constIcat "ck04models" "Castelli and Kurucz 2004" 3000 (7/3)
      (5/2)).query.metallicity = 7/3 ∧
    (icatFetch constIcat "phoenix_v16_rebin" "PHOENIXv16 (Husser+13)" 2300 (7/3)
      2).query.metallicity = 7/3 ∧
    (icatFetch constIcat "merged" "ATLAS-PHOENIX merge" 5250 (7/3)
      4).query.metallicity = 7/3 := by
  refine ⟨(metallicity_unchanged constIcat (7/3) 20000 4 true).1, ?_, ?_, ?_⟩
  · exact (metallicity_unchanged constIcat (7/3) 3000 2 true).2.2.2.2.2.2.1 _
      (castelli_eval constIcat (7/3))
  · exact (metallicity_unchanged constIcat (7/3) 2300 2 true).2.2.2.2.2.2.2.1 _
      (phoenixv16_eval constIcat (7/3) true)
  · exact (metallicity_unchanged constIcat (7/3) 5250 4 true).2.2.2.2.2.2.2.2 _
      (atlas_eval constIcat (7/3))

end PyPopStar
